import Mathlib

/-!
Shallow embedding of the STEMMA soil sensor driver core
(`src/lib.rs`, `src/regs.rs`).

Modelling conventions:
* Bus bytes are `Nat`, reduced `% 256` at the points where the source
  interprets them as `u8` (`be16`, `i32FromBe`).
* The bus transport (`rppal::i2c::I2c`) is modelled by response
  functions.  For the readers (`get_temp`, `get_capacitance`) the
  responses are indexed by how many writes resp. reads the channel has
  already served, so a stub can answer differently on successive
  attempts; the pair `(widx, ridx)` of counters is threaded explicitly.
  For discovery (`init`) each candidate address is probed exactly once,
  so responses are indexed by the address instead.
* `I2c::read(buff)` fills a prefix of the caller's buffer and leaves the
  rest untouched; `writeInto` reproduces that.
* Every observable interaction (bus write, delay-provider call, bus
  read) is recorded in a trace of `Event`s.
* The `f32` arithmetic of `get_temp` is modelled exactly over `ℚ`:
  Rust's `i32 as f32` is round-to-nearest-ties-to-even to 24 significant
  bits (`roundF32Int`); the constant `1.0 / ((1u32 << 16) as f32)` is
  exactly 2 ^ (-16) in binary32, and multiplying a binary32 number by
  2 ^ (-16) is exact on this range (no overflow, since magnitudes stay
  below 2 ^ 15, and no underflow, since the smallest nonzero magnitude
  is 2 ^ (-16), far above the smallest positive normal 2 ^ (-126)), so
  the final multiply is exact rational multiplication.
* `get_capacitance`'s `while` loop is embedded with explicit fuel:
  `capLoop chan fuel …` runs at most `fuel` iterations of the loop body
  and returns `none` when the fuel is exhausted while the loop would
  still be running.  The loop guard is checked before fuel is consumed,
  so a run that makes the guard false within `fuel` iterations is fully
  represented.
-/

/-- Seesaw HW ID code (`regs.rs`): the identity byte a genuine device
answers with. -/
def SEESAW_HW_ID_CODE : Nat := 0x55

/-- Status module base address (`regs.rs`). -/
def SEESAW_STATUS_BASE : Nat := 0x00

/-- Touch module base address (`regs.rs`). -/
def SEESAW_TOUCH_BASE : Nat := 0x0F

/-- HW ID function register (`regs.rs`). -/
def SEESAW_STATUS_HW_ID : Nat := 0x01

/-- Temperature function register (`regs.rs`). -/
def SEESAW_STATUS_TEMP : Nat := 0x04

/-- Touch channel offset register (`regs.rs`). -/
def SEESAW_TOUCH_CHANNEL_OFFSET : Nat := 0x10

/-- Standard processing delay in microseconds (`lib.rs`). -/
def STD_PROCESSING_DELAY_MICROS : Nat := 125

/-- First candidate bus address of the discovery scan (`lib.rs`). -/
def SENSOR_START_ADDR : Nat := 0x36

/-- Last candidate bus address of the discovery scan (`lib.rs`). -/
def SENSOR_END_ADDR : Nat := 0x39

/-- Errors of the underlying bus transport (`rppal::i2c::Error`).  The
driver only ever discriminates `InvalidSlaveAddress`; every other
variant is abstracted as `other` with a numeric tag. -/
inductive I2CError where
  | invalidSlaveAddress (adr : Nat)
  | other (code : Nat)
deriving DecidableEq

/-- The driver's error type (`SoilSensErr` in `lib.rs`). -/
inductive SoilSensErr where
  | moistureReadErr
  | hwNotFound
  | hardwareMismatch (expected got : Nat)
  | invalidSlaveAddress (adr : Nat)
  | i2c (source : I2CError)
deriving DecidableEq

/-- Observable interactions of the core with its collaborators: a bus
write of the given bytes, a blocking microsecond delay through the
Delay Provider, and a bus read of the given buffer length. -/
inductive Event where
  | busWrite (bytes : List Nat)
  | delayUs (us : Nat)
  | busRead (len : Nat)
deriving DecidableEq

/-- Whether an event is a bus read. -/
def isBusRead : Event → Bool
  | .busRead _ => true
  | _ => false

/-- Number of bus reads in a trace: how often the transport was queried. -/
def readCount (tr : List Event) : Nat := tr.countP isBusRead

/-- Number of bus writes in a trace. -/
def writeCount (tr : List Event) : Nat :=
  tr.countP fun e => match e with | .busWrite _ => true | _ => false

/-- `I2c::read(buff)` semantics: the bytes delivered by the bus fill a
prefix of the caller's buffer, the rest of the buffer keeps its previous
contents. -/
def writeInto (buff bs : List Nat) : List Nat :=
  bs.take buff.length ++ buff.drop (min bs.length buff.length)

/-- `u16::from_be_bytes` on a 2-byte buffer. -/
def be16 (l : List Nat) : Nat := (l.getD 0 0 % 256) * 256 + l.getD 1 0 % 256

/-- `i32::from_be_bytes` on a 4-byte buffer: big-endian two's-complement. -/
def i32FromBe (b0 b1 b2 b3 : Nat) : Int :=
  let u : Nat :=
    (b0 % 256) * 2 ^ 24 + (b1 % 256) * 2 ^ 16 + (b2 % 256) * 2 ^ 8 + b3 % 256
  if u < 2 ^ 31 then (u : Int) else (u : Int) - 2 ^ 32

/-- `i32::from_be_bytes` applied to a 4-byte buffer given as a list. -/
def i32FromBeList (l : List Nat) : Int :=
  i32FromBe (l.getD 0 0) (l.getD 1 0) (l.getD 2 0) (l.getD 3 0)

/-- Rust's `v as f32` on an `i32`, expressed exactly over the integers:
round the magnitude to 24 significant bits, ties to even (IEEE 754
roundTiesToEven; every `i32` is far below the `f32` overflow threshold,
so the result is always finite and this is the whole conversion). -/
def roundF32Int (v : Int) : Int :=
  let n := v.natAbs
  if n ≤ 2 ^ 24 then v
  else
    let k := n.log2 - 23
    let q := n / 2 ^ k
    let r := n % 2 ^ k
    let h := 2 ^ (k - 1)
    let q2 := if h < r then q + 1 else if r < h then q else if q % 2 = 0 then q else q + 1
    Int.sign v * (q2 * 2 ^ k : Nat)

/-- The constant `1.0 / ((1u32 << 16) as f32)` of `get_temp`: `65536.0`
is exactly representable in binary32 and so is the quotient `2 ^ (-16)`,
hence the constant is exactly `1 / 65536`. -/
def f32TempScale : ℚ := 1 / 65536

/-- Bus transport as seen by a bound sensor (`rppal::i2c::I2c` after
`set_slave_address`): the response to the `i`-th write of given bytes,
and to the `i`-th read of a given buffer length. -/
structure Chan where
  writeRes : Nat → List Nat → Except I2CError Unit
  readRes : Nat → Nat → Except I2CError (List Nat)

/-- `SoilSensor::read` (`lib.rs` lines 148-154): write the two register
address bytes as a single bus write, block `delay_us` microseconds via
the Delay Provider, then issue a single bus read filling `buff`.  A bus
error from either step is propagated wrapped as `SoilSensErr::i2c` by
the `?` operator, aborting the read (after a failed write neither the
delay nor the read happens).  `st = (widx, ridx)` counts the bus
operations served so far; the result carries the updated counters and
the trace of this call. -/
def SoilSensor.read (chan : Chan) (st : Nat × Nat) (reg_low reg_high : Nat)
    (buff : List Nat) (delay_us : Nat) :
    Except SoilSensErr (List Nat) × (Nat × Nat) × List Event :=
  match chan.writeRes st.1 [reg_low, reg_high] with
  | .error e => (.error (.i2c e), (st.1 + 1, st.2), [.busWrite [reg_low, reg_high]])
  | .ok _ =>
    match chan.readRes st.2 buff.length with
    | .error e =>
        (.error (.i2c e), (st.1 + 1, st.2 + 1),
         [.busWrite [reg_low, reg_high], .delayUs delay_us, .busRead buff.length])
    | .ok bs =>
        (.ok (writeInto buff bs), (st.1 + 1, st.2 + 1),
         [.busWrite [reg_low, reg_high], .delayUs delay_us, .busRead buff.length])

/-- `SoilSensor::get_temp` (`lib.rs` lines 99-111): one register read of
4 bytes from `(SEESAW_STATUS_BASE, SEESAW_STATUS_TEMP)` with a 125 µs
settle delay into a zeroed buffer, then
`(1.0 / ((1u32 << 16) as f32)) * (i32::from_be_bytes(buffer) as f32)`.
No retry: an error from the read is returned directly by `?`. -/
def SoilSensor.get_temp (chan : Chan) (st : Nat × Nat) :
    Except SoilSensErr ℚ × (Nat × Nat) × List Event :=
  let r := SoilSensor.read chan st SEESAW_STATUS_BASE SEESAW_STATUS_TEMP
    (List.replicate 4 0) STD_PROCESSING_DELAY_MICROS
  match r.1 with
  | .error e => (.error e, r.2.1, r.2.2)
  | .ok buffer => (.ok (f32TempScale * (roundF32Int (i32FromBeList buffer) : ℚ)), r.2.1, r.2.2)

/-- The `while retry_counter < 3` loop of `SoilSensor::get_capacitance`
(`lib.rs` lines 126-142), with explicit fuel.  Each iteration: 1000 µs
delay through the sensor's Delay Provider, then a register read of
2 bytes from `(SEESAW_TOUCH_BASE, SEESAW_TOUCH_CHANNEL_OFFSET)` with a
5000 µs settle delay.  On a read error the retry counter is incremented
and the loop continues; on success the buffer is interpreted as a
big-endian `u16` and returned if it is strictly below `0xFFFF`, while a
`0xFFFF` sentinel continues the loop WITHOUT touching the retry counter,
exactly as the source does.  The guard is tested before fuel is
consumed; `none` means the fuel ran out with the loop still running. -/
def capLoop (chan : Chan) (fuel retry : Nat) (st : Nat × Nat)
    (buff : List Nat) (tr : List Event) :
    Option (Except SoilSensErr Nat × (Nat × Nat) × List Event) :=
  if retry < 3 then
    match fuel with
    | 0 => none
    | f + 1 =>
      let tr1 := tr ++ [Event.delayUs 1000]
      let r := SoilSensor.read chan st SEESAW_TOUCH_BASE SEESAW_TOUCH_CHANNEL_OFFSET buff 5000
      match r.1 with
      | .error _ => capLoop chan f (retry + 1) r.2.1 buff (tr1 ++ r.2.2)
      | .ok nb =>
        if be16 nb < 65535 then some (.ok (be16 nb), r.2.1, tr1 ++ r.2.2)
        else capLoop chan f retry r.2.1 nb (tr1 ++ r.2.2)
  else some (.error SoilSensErr.moistureReadErr, st, tr)

/-- `SoilSensor::get_capacitance` (`lib.rs` lines 120-143): run the
retry loop on a fresh channel state with a zeroed 2-byte buffer. -/
def SoilSensor.get_capacitance (chan : Chan) (fuel : Nat) :
    Option (Except SoilSensErr Nat × (Nat × Nat) × List Event) :=
  capLoop chan fuel 0 (0, 0) (List.replicate 2 0) []

/-- Observation of a `get_capacitance` run: the returned result together
with how many times the transport was queried (bus reads issued). -/
def capView (r : Except SoilSensErr Nat × (Nat × Nat) × List Event) :
    Except SoilSensErr Nat × Nat :=
  (r.1, readCount r.2.2)

/-- Bus transport as seen by discovery: the result of
`set_slave_address` for each candidate address, and — since each
candidate is probed exactly once — the write and read responses indexed
by the currently addressed candidate. -/
structure ProbeChan where
  setAddr : Nat → Except I2CError Unit
  write : Nat → List Nat → Except I2CError Unit
  read : Nat → Nat → Except I2CError (List Nat)

/-- `init::try_read_chan` (`lib.rs` lines 188-198): write
`[SEESAW_STATUS_BASE, SEESAW_STATUS_HW_ID]`, delay 125 µs, read one byte
into a zeroed 1-byte buffer and return it.  Bus errors are wrapped as
`SoilSensErr::i2c` by `?` and abort (a failed write means no delay and
no read). -/
def try_read_chan (chan : ProbeChan) (adr : Nat) :
    Except SoilSensErr Nat × List Event :=
  match chan.write adr [SEESAW_STATUS_BASE, SEESAW_STATUS_HW_ID] with
  | .error e => (.error (.i2c e), [.busWrite [SEESAW_STATUS_BASE, SEESAW_STATUS_HW_ID]])
  | .ok _ =>
    match chan.read adr 1 with
    | .error e =>
        (.error (.i2c e),
         [.busWrite [SEESAW_STATUS_BASE, SEESAW_STATUS_HW_ID],
          .delayUs STD_PROCESSING_DELAY_MICROS, .busRead 1])
    | .ok bs =>
        (.ok ((writeInto [0] bs).getD 0 0),
         [.busWrite [SEESAW_STATUS_BASE, SEESAW_STATUS_HW_ID],
          .delayUs STD_PROCESSING_DELAY_MICROS, .busRead 1])

/-- `init::channel_init` (`lib.rs` lines 161-185): probe the HW ID
register; on a successful read a byte other than `SEESAW_HW_ID_CODE` is
a `HardwareMismatch`; a transport `InvalidSlaveAddress` error is
reclassified as `SoilSensErr::invalidSlaveAddress`; every other error is
returned unchanged. -/
def channel_init (chan : ProbeChan) (adr : Nat) : Except SoilSensErr Unit :=
  match (try_read_chan chan adr).1 with
  | .ok resp =>
      if resp ≠ SEESAW_HW_ID_CODE then
        .error (.hardwareMismatch SEESAW_HW_ID_CODE resp)
      else
        .ok ()
  | .error (.i2c (.invalidSlaveAddress a)) => .error (.invalidSlaveAddress a)
  | .error e => .error e

/-- The candidate loop of `SoilSensor::init` (`lib.rs` lines 62-78) over
an explicit list of remaining candidates.  For each candidate:
`set_slave_address` (a failure propagates through `?`, aborting the
whole of `init`), then `channel_init`; `Ok` binds the sensor to the
candidate and stops, `HardwareMismatch` and `InvalidSlaveAddress`
continue with the next candidate, any other error is returned,
aborting.  An exhausted list yields `HwNotFound`.  The second component
is the list of candidates the loop actually visited, in order. -/
def initLoop (chan : ProbeChan) : List Nat → Except SoilSensErr Nat × List Nat
  | [] => (.error .hwNotFound, [])
  | adr :: rest =>
    match chan.setAddr adr with
    | .error e => (.error (.i2c e), [adr])
    | .ok _ =>
      match channel_init chan adr with
      | .ok _ => (.ok adr, [adr])
      | .error (.hardwareMismatch _ _) =>
          ((initLoop chan rest).1, adr :: (initLoop chan rest).2)
      | .error (.invalidSlaveAddress _) =>
          ((initLoop chan rest).1, adr :: (initLoop chan rest).2)
      | .error e => (.error e, [adr])

/-- The candidate range `SENSOR_START_ADDR..=SENSOR_END_ADDR` of
`SoilSensor::init`, in ascending order. -/
def sensorAddrRange : List Nat :=
  List.range' SENSOR_START_ADDR (SENSOR_END_ADDR + 1 - SENSOR_START_ADDR)

/-- `SoilSensor::init` (`lib.rs` lines 58-81): scan the candidate range
in ascending order; on success the result carries the bound address. -/
def SoilSensor.init (chan : ProbeChan) : Except SoilSensErr Nat × List Nat :=
  initLoop chan sensorAddrRange

/-- A candidate the discovery loop skips: addressing succeeds and the
HW ID probe either succeeds with a non-matching identity byte or fails
with a transport-level invalid-slave-address error. -/
def probeSkips (chan : ProbeChan) (adr : Nat) : Prop :=
  chan.setAddr adr = .ok () ∧
    ((∃ r, (try_read_chan chan adr).1 = .ok r ∧ r ≠ SEESAW_HW_ID_CODE) ∨
     (∃ a, (try_read_chan chan adr).1 = .error (.i2c (.invalidSlaveAddress a))))

/-- Spec-side temperature formula: `int32_from_be(bytes) / 65536.0`
evaluated in `f32` as the spec's environment does — the integer is first
converted to `f32` (round to nearest, ties to even), and the division by
the exact power of two `65536.0` is exact in binary32 on this range, so
it is exact rational division. -/
def tempSpecValue (b0 b1 b2 b3 : Nat) : ℚ :=
  (roundF32Int (i32FromBe b0 b1 b2 b3) : ℚ) / 65536


/-- Capacitance transport stub that always succeeds and always answers
the `0xFFFF` not-ready sentinel (claim scenario: every attempt reads the
sentinel). -/
def chanFFFF : Chan := ⟨fun _ _ => .ok (), fun _ _ => .ok [0xFF, 0xFF]⟩

/-- Capacitance transport stub answering `0xFFFF` on reads 1 and 2 and
`0x02BC` (700) from read 3 on. -/
def chanC7 : Chan :=
  ⟨fun _ _ => .ok (), fun i _ => if i < 2 then .ok [0xFF, 0xFF] else .ok [0x02, 0xBC]⟩

/-- Transport stub whose every read fails with a generic bus error. -/
def chanErrC8 : Chan := ⟨fun _ _ => .ok (), fun _ _ => .error (.other 5)⟩

/-- Transport stub delivering the spec's temperature example bytes. -/
def chanC3wit : Chan := ⟨fun _ _ => .ok (), fun _ _ => .ok [0x00, 0x0C, 0x80, 0x00]⟩

/-- Transport stub with successful 4-byte reads, for the register-read
protocol witness. -/
def chanC6wit : Chan := ⟨fun _ _ => .ok (), fun _ _ => .ok [1, 2, 3, 4]⟩

/-- Discovery stub with successful probes, for the register-read
protocol witness. -/
def probeC6wit : ProbeChan := ⟨fun _ => .ok (), fun _ _ => .ok (), fun _ _ => .ok [0x21]⟩

/-- Transport stub whose writes fail, for the failed-write frame
witness. -/
def chanC10wit : Chan := ⟨fun _ _ => .error (.other 2), fun _ _ => .ok [0]⟩

/-- Discovery stub whose register-select writes fail, for the
failed-write frame witness. -/
def probeC10wit : ProbeChan :=
  ⟨fun _ => .ok (), fun _ _ => .error (.other 4), fun _ _ => .ok [0]⟩

/-- Discovery stub where every candidate answers with the non-matching
identity byte `0x54`. -/
def chanC5wit : ProbeChan := ⟨fun _ => .ok (), fun _ _ => .ok (), fun _ _ => .ok [0x54]⟩

/-- Discovery stub where the probe of candidate `0x36` fails with a
generic bus error (`other 7`) while every other candidate would answer
`0x55`. -/
def chanC4cex : ProbeChan :=
  ⟨fun _ => .ok (), fun a _ => if a = 0x36 then .error (.other 7) else .ok (),
   fun _ _ => .ok [0x55]⟩

/-- Discovery stub where candidate `0x36` answers the wrong identity
byte `0x11` and every later candidate answers `0x55`. -/
def chanC4wit : ProbeChan :=
  ⟨fun _ => .ok (), fun _ _ => .ok (),
   fun a _ => if a = 0x36 then .ok [0x11] else .ok [0x55]⟩

/-- Discovery stub where the probe of candidate `0x36` fails with a
generic bus error (`other 3`) while every other candidate would answer
`0x55`. -/
def chanC1cex : ProbeChan :=
  ⟨fun _ => .ok (), fun a _ => if a = 0x36 then .error (.other 3) else .ok (),
   fun _ _ => .ok [0x55]⟩

/-- Discovery stub where candidate `0x36` answers a wrong identity byte
and the probe of candidate `0x37` fails with a generic bus error. -/
def chanC1wit : ProbeChan :=
  ⟨fun _ => .ok (), fun a _ => if a = 0x37 then .error (.other 9) else .ok (),
   fun _ _ => .ok [0x54]⟩

/-- Discovery stub where `set_slave_address(0x36)` itself fails with an
invalid-slave-address error while every candidate would answer `0x55`. -/
def chanC9cex : ProbeChan :=
  ⟨fun a => if a = 0x36 then .error (.invalidSlaveAddress 0x36) else .ok (),
   fun _ _ => .ok (), fun _ _ => .ok [0x55]⟩

/-- Discovery stub where the probe read of candidate `0x36` fails with
an invalid-slave-address error and `set_slave_address(0x37)` fails. -/
def chanC9wit : ProbeChan :=
  ⟨fun a => if a = 0x37 then .error (.invalidSlaveAddress 0x37) else .ok (),
   fun _ _ => .ok (),
   fun a _ => if a = 0x36 then .error (.invalidSlaveAddress 0x36) else .ok [0x55]⟩

/-- A skipped candidate contributes itself to the visited list and
leaves the rest of the scan unchanged. -/
theorem initLoop_skip (chan : ProbeChan) (adr : Nat) (rest : List Nat)
    (h : probeSkips chan adr) :
    initLoop chan (adr :: rest) = ((initLoop chan rest).1, adr :: (initLoop chan rest).2) := by
  obtain ⟨hset, hcase⟩ := h
  rcases hcase with ⟨r, hr, hne⟩ | ⟨a, ha⟩
  · have hci : channel_init chan adr = .error (.hardwareMismatch SEESAW_HW_ID_CODE r) := by
      unfold channel_init
      rw [hr]
      simp [hne]
    simp [initLoop, hset, hci]
  · have hci : channel_init chan adr = .error (.invalidSlaveAddress a) := by
      unfold channel_init
      rw [ha]
    simp [initLoop, hset, hci]

/-- A scan in which every candidate is skipped visits all of them, in
order, and ends in `HwNotFound`. -/
theorem initLoop_skipAll (chan : ProbeChan) :
    ∀ l : List Nat, (∀ a ∈ l, probeSkips chan a) →
      initLoop chan l = (.error .hwNotFound, l)
  | [], _ => rfl
  | adr :: rest, h => by
    rw [initLoop_skip chan adr rest (h adr (by simp))]
    rw [initLoop_skipAll chan rest (fun a ha => h a (by simp [ha]))]

/-- After a skipped prefix, a candidate whose probe answers the HW ID
code stops the scan with that candidate bound. -/
theorem initLoop_found (chan : ProbeChan) (adr : Nat) (l2 : List Nat)
    (hset : chan.setAddr adr = .ok ())
    (hp : (try_read_chan chan adr).1 = .ok SEESAW_HW_ID_CODE) :
    ∀ l1 : List Nat, (∀ a ∈ l1, probeSkips chan a) →
      initLoop chan (l1 ++ adr :: l2) = (.ok adr, l1 ++ [adr])
  | [], _ => by
    have hci : channel_init chan adr = .ok () := by
      unfold channel_init
      rw [hp]
      simp
    simp [initLoop, hset, hci]
  | b :: l1, h => by
    rw [List.cons_append, initLoop_skip chan b _ (h b (by simp)),
        initLoop_found chan adr l2 hset hp l1 (fun a ha => h a (by simp [ha]))]
    rfl

/-- After a skipped prefix, a candidate whose probe fails with a generic
transport error aborts the whole scan with that error. -/
theorem initLoop_abort (chan : ProbeChan) (adr : Nat) (l2 : List Nat) (c : Nat)
    (hset : chan.setAddr adr = .ok ())
    (hp : (try_read_chan chan adr).1 = .error (.i2c (.other c))) :
    ∀ l1 : List Nat, (∀ a ∈ l1, probeSkips chan a) →
      initLoop chan (l1 ++ adr :: l2) = (.error (.i2c (.other c)), l1 ++ [adr])
  | [], _ => by
    have hci : channel_init chan adr = .error (.i2c (.other c)) := by
      unfold channel_init
      rw [hp]
    simp [initLoop, hset, hci]
  | b :: l1, h => by
    rw [List.cons_append, initLoop_skip chan b _ (h b (by simp)),
        initLoop_abort chan adr l2 c hset hp l1 (fun a ha => h a (by simp [ha]))]
    rfl

/-- After a skipped prefix, a candidate whose `set_slave_address` fails
aborts the whole scan with the wrapped transport error. -/
theorem initLoop_setAddrErr (chan : ProbeChan) (adr : Nat) (l2 : List Nat) (e : I2CError)
    (hset : chan.setAddr adr = .error e) :
    ∀ l1 : List Nat, (∀ a ∈ l1, probeSkips chan a) →
      initLoop chan (l1 ++ adr :: l2) = (.error (.i2c e), l1 ++ [adr])
  | [], _ => by
    simp [initLoop, hset]
  | b :: l1, h => by
    rw [List.cons_append, initLoop_skip chan b _ (h b (by simp)),
        initLoop_setAddrErr chan adr l2 e hset l1 (fun a ha => h a (by simp [ha]))]
    rfl

/-- One loop iteration of `get_capacitance` on a failed read: the retry
counter is incremented and the loop continues. -/
theorem capLoop_step_err (chan : Chan) (f retry : Nat) (st : Nat × Nat)
    (buff : List Nat) (tr : List Event) (e : I2CError)
    (hretry : retry < 3)
    (hw : chan.writeRes st.1 [SEESAW_TOUCH_BASE, SEESAW_TOUCH_CHANNEL_OFFSET] = .ok ())
    (hr : chan.readRes st.2 buff.length = .error e) :
    capLoop chan (f + 1) retry st buff tr =
      capLoop chan f (retry + 1) (st.1 + 1, st.2 + 1) buff
        (tr ++ [Event.delayUs 1000] ++
         [Event.busWrite [SEESAW_TOUCH_BASE, SEESAW_TOUCH_CHANNEL_OFFSET],
          Event.delayUs 5000, Event.busRead buff.length]) := by
  simp [capLoop, hretry, SoilSensor.read, hw, hr]

/-- One loop iteration of `get_capacitance` on a successful non-sentinel
read: the value is returned immediately. -/
theorem capLoop_step_lt (chan : Chan) (f retry : Nat) (st : Nat × Nat)
    (buff : List Nat) (tr : List Event) (bs : List Nat)
    (hretry : retry < 3)
    (hw : chan.writeRes st.1 [SEESAW_TOUCH_BASE, SEESAW_TOUCH_CHANNEL_OFFSET] = .ok ())
    (hr : chan.readRes st.2 buff.length = .ok bs)
    (hlt : be16 (writeInto buff bs) < 65535) :
    capLoop chan (f + 1) retry st buff tr =
      some (.ok (be16 (writeInto buff bs)), (st.1 + 1, st.2 + 1),
        tr ++ [Event.delayUs 1000] ++
        [Event.busWrite [SEESAW_TOUCH_BASE, SEESAW_TOUCH_CHANNEL_OFFSET],
         Event.delayUs 5000, Event.busRead buff.length]) := by
  simp [capLoop, hretry, SoilSensor.read, hw, hr, hlt]

/-- One loop iteration of `get_capacitance` on a successful sentinel
read: the loop continues with the retry counter UNCHANGED (this is the
source's behavior). -/
theorem capLoop_step_sentinel (chan : Chan) (f retry : Nat) (st : Nat × Nat)
    (buff : List Nat) (tr : List Event) (bs : List Nat)
    (hretry : retry < 3)
    (hw : chan.writeRes st.1 [SEESAW_TOUCH_BASE, SEESAW_TOUCH_CHANNEL_OFFSET] = .ok ())
    (hr : chan.readRes st.2 buff.length = .ok bs)
    (hge : ¬ be16 (writeInto buff bs) < 65535) :
    capLoop chan (f + 1) retry st buff tr =
      capLoop chan f retry (st.1 + 1, st.2 + 1) (writeInto buff bs)
        (tr ++ [Event.delayUs 1000] ++
         [Event.busWrite [SEESAW_TOUCH_BASE, SEESAW_TOUCH_CHANNEL_OFFSET],
          Event.delayUs 5000, Event.busRead buff.length]) := by
  simp [capLoop, hretry, SoilSensor.read, hw, hr, hge]

/-- With the retry counter at 3 the loop exits with `MoistureReadErr`. -/
theorem capLoop_done (chan : Chan) (fuel retry : Nat) (st : Nat × Nat)
    (buff : List Nat) (tr : List Event) (h : ¬ retry < 3) :
    capLoop chan fuel retry st buff tr = some (.error SoilSensErr.moistureReadErr, st, tr) := by
  cases fuel <;> simp [capLoop, h]

/-- Against the always-sentinel transport the loop never leaves its
initial retry count: whatever the fuel, it runs out with the loop still
going. -/
theorem capLoop_chanFFFF :
    ∀ (fuel : Nat) (st : Nat × Nat) (buff : List Nat) (tr : List Event),
      buff.length = 2 → capLoop chanFFFF fuel 0 st buff tr = none
  | 0, st, buff, tr, h => by simp [capLoop]
  | f + 1, st, buff, tr, h => by
    have hd : buff.drop 2 = [] := List.drop_eq_nil_of_le (by omega)
    have hnb : writeInto buff [0xFF, 0xFF] = [0xFF, 0xFF] := by
      simp [writeInto, h, hd]
    rw [capLoop_step_sentinel chanFFFF f 0 st buff tr [0xFF, 0xFF] (by omega) rfl rfl
        (by rw [hnb]; decide)]
    rw [hnb]
    exact capLoop_chanFFFF f _ _ _ rfl

/-- `get_temp` when the 4-byte register read fails: the wrapped error is
returned directly after a single write/delay/read transaction. -/
theorem get_temp_readErr (chan : Chan) (e : I2CError)
    (hw : chan.writeRes 0 [SEESAW_STATUS_BASE, SEESAW_STATUS_TEMP] = .ok ())
    (hr : chan.readRes 0 4 = .error e) :
    SoilSensor.get_temp chan (0, 0) =
      (.error (.i2c e), (1, 1),
       [.busWrite [SEESAW_STATUS_BASE, SEESAW_STATUS_TEMP],
        .delayUs STD_PROCESSING_DELAY_MICROS, .busRead 4]) := by
  simp [SoilSensor.get_temp, SoilSensor.read, hw, hr]

/-- `get_temp` when the 4-byte register read succeeds. -/
theorem get_temp_ok (chan : Chan) (bs : List Nat)
    (hw : chan.writeRes 0 [SEESAW_STATUS_BASE, SEESAW_STATUS_TEMP] = .ok ())
    (hr : chan.readRes 0 4 = .ok bs) :
    SoilSensor.get_temp chan (0, 0) =
      (.ok (f32TempScale * (roundF32Int (i32FromBeList (writeInto (List.replicate 4 0) bs)) : ℚ)),
       (1, 1),
       [.busWrite [SEESAW_STATUS_BASE, SEESAW_STATUS_TEMP],
        .delayUs STD_PROCESSING_DELAY_MICROS, .busRead 4]) := by
  simp [SoilSensor.get_temp, SoilSensor.read, hw, hr]


/-- C2: the claim says that against a capacitance transport whose reads
all succeed with the `0xFFFF` sentinel, `get_capacitance` terminates
with `MoistureReadErr` after exactly 3 queries.  The code does not: a
successful sentinel read leaves `retry_counter` untouched, so the
`while retry_counter < 3` loop never exits — for EVERY fuel bound the
embedded loop is still running when the fuel runs out. -/
theorem C2_sentinel_never_terminates :
    ∀ fuel : Nat, SoilSensor.get_capacitance chanFFFF fuel = none := fun fuel =>
  capLoop_chanFFFF fuel (0, 0) (List.replicate 2 0) [] rfl

/-- C7: with `0xFFFF` on reads 1 and 2 and `0x02BC` on read 3,
`get_capacitance` returns `Ok 700` having queried the transport exactly
3 times; and in general, within the loop a successfully read value
strictly below `0xFFFF` is returned immediately. -/
theorem C7_first_valid_value_returned :
    Option.map capView (SoilSensor.get_capacitance chanC7 3) = some (.ok 700, 3) ∧
    ∀ (chan : Chan) (f retry : Nat) (st : Nat × Nat) (buff : List Nat) (tr : List Event)
      (bs : List Nat),
      retry < 3 →
      chan.writeRes st.1 [SEESAW_TOUCH_BASE, SEESAW_TOUCH_CHANNEL_OFFSET] = .ok () →
      chan.readRes st.2 buff.length = .ok bs →
      be16 (writeInto buff bs) < 65535 →
      capLoop chan (f + 1) retry st buff tr =
        some (.ok (be16 (writeInto buff bs)), (st.1 + 1, st.2 + 1),
          tr ++ [Event.delayUs 1000] ++
          [Event.busWrite [SEESAW_TOUCH_BASE, SEESAW_TOUCH_CHANNEL_OFFSET],
           Event.delayUs 5000, Event.busRead buff.length]) :=
  ⟨rfl, capLoop_step_lt⟩

/-- Witness for C7: the general clause applied at a concrete state where
the next read delivers `0x02BC`. -/
theorem C7_witness :
    capLoop chanC7 1 0 (2, 2) (List.replicate 2 0) [] =
      some (.ok 700, (3, 3),
        [Event.delayUs 1000, Event.busWrite [SEESAW_TOUCH_BASE, SEESAW_TOUCH_CHANNEL_OFFSET],
         Event.delayUs 5000, Event.busRead 2]) := by
  have h := C7_first_valid_value_returned.2 chanC7 0 0 (2, 2) (List.replicate 2 0) []
    [0x02, 0xBC] (by omega) rfl rfl (by decide)
  rw [h]
  rfl

/-- C8: against a transport whose every read fails with a bus error,
`get_capacitance` performs exactly 3 attempts (3 transport queries) and
fails with `MoistureReadErr`, while `get_temp` fails on the first error
with no retry, propagating the wrapped transport error after a single
write/delay/read transaction. -/
theorem C8_all_reads_fail (chan : Chan)
    (hw : ∀ i bs, chan.writeRes i bs = .ok ())
    (hr : ∀ i n, ∃ e, chan.readRes i n = .error e) :
    Option.map capView (SoilSensor.get_capacitance chan 3) =
      some (.error SoilSensErr.moistureReadErr, 3) ∧
    ∃ e, chan.readRes 0 4 = .error e ∧
      SoilSensor.get_temp chan (0, 0) =
        (.error (.i2c e), (1, 1),
         [.busWrite [SEESAW_STATUS_BASE, SEESAW_STATUS_TEMP],
          .delayUs STD_PROCESSING_DELAY_MICROS, .busRead 4]) := by
  obtain ⟨e0, he0⟩ := hr 0 2
  obtain ⟨e1, he1⟩ := hr 1 2
  obtain ⟨e2, he2⟩ := hr 2 2
  constructor
  · have h0 : SoilSensor.get_capacitance chan 3 =
        capLoop chan 3 0 (0, 0) (List.replicate 2 0) [] := rfl
    rw [h0]
    rw [capLoop_step_err chan 2 0 (0, 0) (List.replicate 2 0) [] e0 (by omega) (hw 0 _)
      (by simpa using he0)]
    rw [capLoop_step_err chan 1 1 (1, 1) (List.replicate 2 0) _ e1 (by omega) (hw 1 _)
      (by simpa using he1)]
    rw [capLoop_step_err chan 0 2 (2, 2) (List.replicate 2 0) _ e2 (by omega) (hw 2 _)
      (by simpa using he2)]
    rw [capLoop_done chan 0 3 _ _ _ (by omega)]
    rfl
  · obtain ⟨e, he⟩ := hr 0 4
    exact ⟨e, he, get_temp_readErr chan e (hw 0 _) he⟩

/-- Witness for C8: the theorem applied to the concrete always-failing
transport stub. -/
theorem C8_witness :
    Option.map capView (SoilSensor.get_capacitance chanErrC8 3) =
      some (.error SoilSensErr.moistureReadErr, 3) ∧
    ∃ e, chanErrC8.readRes 0 4 = .error e ∧
      SoilSensor.get_temp chanErrC8 (0, 0) =
        (.error (.i2c e), (1, 1),
         [.busWrite [SEESAW_STATUS_BASE, SEESAW_STATUS_TEMP],
          .delayUs STD_PROCESSING_DELAY_MICROS, .busRead 4]) :=
  C8_all_reads_fail chanErrC8 (fun _ _ => rfl) (fun _ _ => ⟨.other 5, rfl⟩)

/-- C3: for every 4-byte buffer delivered by a successful TEMP register
read, `get_temp` returns exactly the spec formula
`int32_from_be(bytes) / 65536.0` evaluated in binary32
(`tempSpecValue`); the example bytes `[0x00, 0x0C, 0x80, 0x00]` give
exactly 12.5, sign is handled through the two's-complement
interpretation (bytes `[0xFF, 0xFF, 0x80, 0x00]` give exactly -0.5), and
whenever the integer magnitude is at most 2 ^ 24 the value is exactly
the rational `int32_from_be(bytes) / 65536`. -/
theorem C3_temp_conversion :
    (∀ (chan : Chan) (b0 b1 b2 b3 : Nat),
        chan.writeRes 0 [SEESAW_STATUS_BASE, SEESAW_STATUS_TEMP] = .ok () →
        chan.readRes 0 4 = .ok [b0, b1, b2, b3] →
        (SoilSensor.get_temp chan (0, 0)).1 = .ok (tempSpecValue b0 b1 b2 b3)) ∧
      tempSpecValue 0x00 0x0C 0x80 0x00 = 25 / 2 ∧
      tempSpecValue 0xFF 0xFF 0x80 0x00 = -1 / 2 ∧
      ∀ b0 b1 b2 b3 : Nat, (i32FromBe b0 b1 b2 b3).natAbs ≤ 2 ^ 24 →
        tempSpecValue b0 b1 b2 b3 = (i32FromBe b0 b1 b2 b3 : ℚ) / 65536 := by
  refine ⟨?_, by norm_num [tempSpecValue, roundF32Int, i32FromBe],
    by norm_num [tempSpecValue, roundF32Int, i32FromBe], ?_⟩
  · intro chan b0 b1 b2 b3 hw hr
    rw [get_temp_ok chan [b0, b1, b2, b3] hw hr]
    have hbuf : writeInto (List.replicate 4 0) [b0, b1, b2, b3] = [b0, b1, b2, b3] := by
      simp [writeInto]
    rw [hbuf]
    have hval : f32TempScale * (roundF32Int (i32FromBeList [b0, b1, b2, b3]) : ℚ) =
        tempSpecValue b0 b1 b2 b3 := by
      have h2 : i32FromBeList [b0, b1, b2, b3] = i32FromBe b0 b1 b2 b3 := rfl
      rw [h2, tempSpecValue, f32TempScale]
      ring
    rw [hval]
  · intro b0 b1 b2 b3 h
    rw [tempSpecValue]
    have h' : (i32FromBe b0 b1 b2 b3).natAbs ≤ 16777216 := by simpa using h
    have hround : roundF32Int (i32FromBe b0 b1 b2 b3) = i32FromBe b0 b1 b2 b3 := by
      simp [roundF32Int, h]
      intro hlt
      omega
    rw [hround]

/-- Witness for C3: the temperature path applied to the spec's example
bytes yields exactly 12.5 degrees Celsius. -/
theorem C3_witness : (SoilSensor.get_temp chanC3wit (0, 0)).1 = .ok ((25 : ℚ) / 2) := by
  have h := C3_temp_conversion.1 chanC3wit 0x00 0x0C 0x80 0x00 rfl rfl
  rw [h, C3_temp_conversion.2.1]

/-- C6: every register read of the core — `SoilSensor::read` and
discovery's `try_read_chan` — writes exactly the two register-address
bytes as a single bus write, blocks for the given settle delay via the
Delay Provider, then issues a single bus read of exactly the buffer
length (the filled buffer keeps the buffer's length); a bus error from
the write or the read step is propagated wrapped as a transport error,
with no retry at this layer. -/
theorem C6_register_read_protocol :
    (∀ (chan : Chan) (st : Nat × Nat) (rl rh : Nat) (buff : List Nat) (d : Nat) (bs : List Nat),
        chan.writeRes st.1 [rl, rh] = .ok () →
        chan.readRes st.2 buff.length = .ok bs →
        SoilSensor.read chan st rl rh buff d =
          (.ok (writeInto buff bs), (st.1 + 1, st.2 + 1),
           [.busWrite [rl, rh], .delayUs d, .busRead buff.length])) ∧
    (∀ (chan : Chan) (st : Nat × Nat) (rl rh : Nat) (buff : List Nat) (d : Nat) (e : I2CError),
        chan.writeRes st.1 [rl, rh] = .error e →
        SoilSensor.read chan st rl rh buff d =
          (.error (.i2c e), (st.1 + 1, st.2), [.busWrite [rl, rh]])) ∧
    (∀ (chan : Chan) (st : Nat × Nat) (rl rh : Nat) (buff : List Nat) (d : Nat) (e : I2CError),
        chan.writeRes st.1 [rl, rh] = .ok () →
        chan.readRes st.2 buff.length = .error e →
        SoilSensor.read chan st rl rh buff d =
          (.error (.i2c e), (st.1 + 1, st.2 + 1),
           [.busWrite [rl, rh], .delayUs d, .busRead buff.length])) ∧
    (∀ buff bs : List Nat, (writeInto buff bs).length = buff.length) ∧
    (∀ (chan : ProbeChan) (adr : Nat) (bs : List Nat),
        chan.write adr [SEESAW_STATUS_BASE, SEESAW_STATUS_HW_ID] = .ok () →
        chan.read adr 1 = .ok bs →
        try_read_chan chan adr =
          (.ok ((writeInto [0] bs).getD 0 0),
           [.busWrite [SEESAW_STATUS_BASE, SEESAW_STATUS_HW_ID],
            .delayUs STD_PROCESSING_DELAY_MICROS, .busRead 1])) ∧
    (∀ (chan : ProbeChan) (adr : Nat) (e : I2CError),
        chan.write adr [SEESAW_STATUS_BASE, SEESAW_STATUS_HW_ID] = .error e →
        try_read_chan chan adr =
          (.error (.i2c e), [.busWrite [SEESAW_STATUS_BASE, SEESAW_STATUS_HW_ID]])) ∧
    ∀ (chan : ProbeChan) (adr : Nat) (e : I2CError),
        chan.write adr [SEESAW_STATUS_BASE, SEESAW_STATUS_HW_ID] = .ok () →
        chan.read adr 1 = .error e →
        try_read_chan chan adr =
          (.error (.i2c e),
           [.busWrite [SEESAW_STATUS_BASE, SEESAW_STATUS_HW_ID],
            .delayUs STD_PROCESSING_DELAY_MICROS, .busRead 1]) := by
  refine ⟨?_, ?_, ?_, ?_, ?_, ?_, ?_⟩
  · intro chan st rl rh buff d bs hw hr
    simp [SoilSensor.read, hw, hr]
  · intro chan st rl rh buff d e hw
    simp [SoilSensor.read, hw]
  · intro chan st rl rh buff d e hw hr
    simp [SoilSensor.read, hw, hr]
  · intro buff bs
    simp [writeInto]
    omega
  · intro chan adr bs hw hr
    simp [try_read_chan, hw, hr]
  · intro chan adr e hw
    simp [try_read_chan, hw]
  · intro chan adr e hw hr
    simp [try_read_chan, hw, hr]

/-- Witness for C6: the success clauses applied to concrete stubs. -/
theorem C6_witness :
    SoilSensor.read chanC6wit (0, 0) SEESAW_STATUS_BASE SEESAW_STATUS_TEMP
        (List.replicate 4 0) 125 =
      (.ok (writeInto (List.replicate 4 0) [1, 2, 3, 4]), (0 + 1, 0 + 1),
       [.busWrite [SEESAW_STATUS_BASE, SEESAW_STATUS_TEMP], .delayUs 125,
        .busRead (List.replicate 4 0).length]) ∧
    try_read_chan probeC6wit 0x36 =
      (.ok ((writeInto [0] [0x21]).getD 0 0),
       [.busWrite [SEESAW_STATUS_BASE, SEESAW_STATUS_HW_ID],
        .delayUs STD_PROCESSING_DELAY_MICROS, .busRead 1]) :=
  ⟨C6_register_read_protocol.1 chanC6wit (0, 0) SEESAW_STATUS_BASE SEESAW_STATUS_TEMP
      (List.replicate 4 0) 125 [1, 2, 3, 4] rfl rfl,
   C6_register_read_protocol.2.2.2.2.1 probeC6wit 0x36 [0x21] rfl rfl⟩

/-- C10: in both register-read primitives a failed register-select write
returns the wrapped error with the transaction stopped: the trace is the
single write event, so the Delay Provider is never invoked and no bus
read is issued. -/
theorem C10_failed_write_stops_transaction :
    (∀ (chan : Chan) (st : Nat × Nat) (rl rh : Nat) (buff : List Nat) (d : Nat) (e : I2CError),
        chan.writeRes st.1 [rl, rh] = .error e →
        SoilSensor.read chan st rl rh buff d =
          (.error (.i2c e), (st.1 + 1, st.2), [.busWrite [rl, rh]]) ∧
        (∀ us, Event.delayUs us ∉ (SoilSensor.read chan st rl rh buff d).2.2) ∧
        ∀ n, Event.busRead n ∉ (SoilSensor.read chan st rl rh buff d).2.2) ∧
    ∀ (chan : ProbeChan) (adr : Nat) (e : I2CError),
        chan.write adr [SEESAW_STATUS_BASE, SEESAW_STATUS_HW_ID] = .error e →
        try_read_chan chan adr =
          (.error (.i2c e), [.busWrite [SEESAW_STATUS_BASE, SEESAW_STATUS_HW_ID]]) ∧
        (∀ us, Event.delayUs us ∉ (try_read_chan chan adr).2) ∧
        ∀ n, Event.busRead n ∉ (try_read_chan chan adr).2 := by
  constructor
  · intro chan st rl rh buff d e hw
    refine ⟨by simp [SoilSensor.read, hw], ?_, ?_⟩
    · intro us
      simp [SoilSensor.read, hw]
    · intro n
      simp [SoilSensor.read, hw]
  · intro chan adr e hw
    refine ⟨by simp [try_read_chan, hw], ?_, ?_⟩
    · intro us
      simp [try_read_chan, hw]
    · intro n
      simp [try_read_chan, hw]

/-- Witness for C10: the failed-write clauses applied to concrete stubs
whose writes fail. -/
theorem C10_witness :
    SoilSensor.read chanC10wit (0, 0) SEESAW_STATUS_BASE SEESAW_STATUS_TEMP
        (List.replicate 4 0) 125 =
      (.error (.i2c (.other 2)), (0 + 1, 0),
       [.busWrite [SEESAW_STATUS_BASE, SEESAW_STATUS_TEMP]]) ∧
    try_read_chan probeC10wit 0x36 =
      (.error (.i2c (.other 4)), [.busWrite [SEESAW_STATUS_BASE, SEESAW_STATUS_HW_ID]]) :=
  ⟨(C10_failed_write_stops_transaction.1 chanC10wit (0, 0) SEESAW_STATUS_BASE
      SEESAW_STATUS_TEMP (List.replicate 4 0) 125 (.other 2) rfl).1,
   (C10_failed_write_stops_transaction.2 probeC10wit 0x36 (.other 4) rfl).1⟩

/-- C5: when every candidate in the scan range yields a non-matching
identity byte or an invalid-address error from the probe, discovery
fails with `HwNotFound`, no sensor is bound, and every candidate of
`[0x36, 0x39]` was attempted exactly once, in ascending order. -/
theorem C5_exhausted_scan (chan : ProbeChan)
    (h : ∀ a ∈ sensorAddrRange, probeSkips chan a) :
    SoilSensor.init chan = (.error .hwNotFound, [0x36, 0x37, 0x38, 0x39]) := by
  have h0 : SoilSensor.init chan = initLoop chan sensorAddrRange := rfl
  rw [h0, initLoop_skipAll chan sensorAddrRange h]
  rfl

/-- Witness for C5: the theorem applied to the stub whose every
candidate answers the wrong identity byte `0x54`. -/
theorem C5_witness :
    SoilSensor.init chanC5wit = (.error .hwNotFound, [0x36, 0x37, 0x38, 0x39]) :=
  C5_exhausted_scan chanC5wit (fun a _ => ⟨rfl, Or.inl ⟨0x54, rfl, by decide⟩⟩)

/-- C4, counterexample: a scan in which candidate `0x37` answers the
HW ID code `0x55`, yet discovery does not return a sensor bound to it —
the generic transport error at candidate `0x36` aborts the whole scan
first and `0x37` is never probed.  This refutes the claim as stated. -/
theorem C4_counterexample :
    (try_read_chan chanC4cex 0x37).1 = .ok SEESAW_HW_ID_CODE ∧
    SoilSensor.init chanC4cex = (.error (.i2c (.other 7)), [0x36]) ∧
    0x37 ∉ (SoilSensor.init chanC4cex).2 := by
  refine ⟨rfl, rfl, by decide⟩

/-- C4 (amended): when every candidate before `adr` yields a hardware
mismatch or an invalid-address probe error and `adr`'s probe answers
`0x55`, discovery returns a sensor bound to `adr` — the first matching
candidate in ascending order — and probes no candidate after it. -/
theorem C4_first_match_wins (chan : ProbeChan) (l1 : List Nat) (adr : Nat) (l2 : List Nat)
    (hsplit : sensorAddrRange = l1 ++ adr :: l2)
    (hskip : ∀ a ∈ l1, probeSkips chan a)
    (hset : chan.setAddr adr = .ok ())
    (hp : (try_read_chan chan adr).1 = .ok SEESAW_HW_ID_CODE) :
    SoilSensor.init chan = (.ok adr, l1 ++ [adr]) := by
  have h0 : SoilSensor.init chan = initLoop chan sensorAddrRange := rfl
  rw [h0, hsplit, initLoop_found chan adr l2 hset hp l1 hskip]

/-- Witness for C4: candidate `0x36` mismatches, candidate `0x37`
answers `0x55`; discovery binds `0x37` after visiting exactly
`[0x36, 0x37]`. -/
theorem C4_witness : SoilSensor.init chanC4wit = (.ok 0x37, [0x36, 0x37]) := by
  refine C4_first_match_wins chanC4wit [0x36] 0x37 [0x38, 0x39] (by decide) ?_ rfl rfl
  intro a ha
  rw [List.mem_singleton] at ha
  subst ha
  exact ⟨rfl, Or.inl ⟨0x11, rfl, by decide⟩⟩

/-- C1, counterexample: candidate `0x36`'s probe fails with a
transport-level error that is neither invalid-address nor a mismatch;
the claim says the locator continues to the next candidate, but `init`
aborts with that error and candidate `0x37` is never attempted. -/
theorem C1_counterexample :
    (try_read_chan chanC1cex 0x36).1 = .error (.i2c (.other 3)) ∧
    SoilSensor.init chanC1cex = (.error (.i2c (.other 3)), [0x36]) ∧
    0x37 ∉ (SoilSensor.init chanC1cex).2 := by
  refine ⟨rfl, rfl, by decide⟩

/-- C1 (amended): during discovery, a candidate whose HW ID probe fails
with a transport-level error that is neither an invalid-address error
nor an identity mismatch makes `init` abort immediately, surfacing that
error; the remaining candidates are not scanned. -/
theorem C1_other_transport_error_aborts (chan : ProbeChan) (l1 : List Nat) (adr : Nat)
    (l2 : List Nat) (c : Nat)
    (hsplit : sensorAddrRange = l1 ++ adr :: l2)
    (hskip : ∀ a ∈ l1, probeSkips chan a)
    (hset : chan.setAddr adr = .ok ())
    (hp : (try_read_chan chan adr).1 = .error (.i2c (.other c))) :
    SoilSensor.init chan = (.error (.i2c (.other c)), l1 ++ [adr]) := by
  have h0 : SoilSensor.init chan = initLoop chan sensorAddrRange := rfl
  rw [h0, hsplit, initLoop_abort chan adr l2 c hset hp l1 hskip]

/-- Witness for C1: candidate `0x36` mismatches, candidate `0x37`'s
probe fails with a generic bus error; discovery aborts with that error
after visiting exactly `[0x36, 0x37]`. -/
theorem C1_witness :
    SoilSensor.init chanC1wit = (.error (.i2c (.other 9)), [0x36, 0x37]) := by
  refine C1_other_transport_error_aborts chanC1wit [0x36] 0x37 [0x38, 0x39] 9
    (by decide) ?_ rfl rfl
  intro a ha
  rw [List.mem_singleton] at ha
  subst ha
  exact ⟨rfl, Or.inl ⟨0x54, rfl, by decide⟩⟩

/-- C9, counterexample: `set_slave_address(0x36)` fails; the claim says
this is classified `InvalidSlaveAddress` and the locator continues, but
`init` aborts at once with the error wrapped as a transport error (not
as `SoilSensErr.invalidSlaveAddress`) and `0x37` is never attempted. -/
theorem C9_counterexample :
    SoilSensor.init chanC9cex = (.error (.i2c (.invalidSlaveAddress 0x36)), [0x36]) ∧
    (SoilSensor.init chanC9cex).1 ≠ .error (.invalidSlaveAddress 0x36) ∧
    0x37 ∉ (SoilSensor.init chanC9cex).2 := by
  refine ⟨rfl, ?_, by decide⟩
  intro h
  exact SoilSensErr.noConfusion (Except.error.inj h)

/-- C9 (amended): a failure of `set_slave_address` aborts discovery with
the error wrapped as a transport error; it is an invalid-slave-address
error arising from the HW ID probe read that is classified as
`InvalidSlaveAddress` and makes the locator continue with the next
candidate. -/
theorem C9_set_address_failure_aborts :
    (∀ (chan : ProbeChan) (l1 : List Nat) (adr : Nat) (l2 : List Nat) (e : I2CError),
        sensorAddrRange = l1 ++ adr :: l2 →
        (∀ a ∈ l1, probeSkips chan a) →
        chan.setAddr adr = .error e →
        SoilSensor.init chan = (.error (.i2c e), l1 ++ [adr])) ∧
    ∀ (chan : ProbeChan) (adr : Nat) (rest : List Nat) (a : Nat),
        chan.setAddr adr = .ok () →
        (try_read_chan chan adr).1 = .error (.i2c (.invalidSlaveAddress a)) →
        initLoop chan (adr :: rest) =
          ((initLoop chan rest).1, adr :: (initLoop chan rest).2) := by
  constructor
  · intro chan l1 adr l2 e hsplit hskip hset
    have h0 : SoilSensor.init chan = initLoop chan sensorAddrRange := rfl
    rw [h0, hsplit, initLoop_setAddrErr chan adr l2 e hset l1 hskip]
  · intro chan adr rest a hset hp
    exact initLoop_skip chan adr rest ⟨hset, Or.inr ⟨a, hp⟩⟩

/-- Witness for C9: probe-read invalid-address at `0x36` is skipped
(second clause), then the `set_slave_address` failure at `0x37` aborts
the scan with the wrapped error (first clause). -/
theorem C9_witness :
    SoilSensor.init chanC9wit = (.error (.i2c (.invalidSlaveAddress 0x37)), [0x36, 0x37]) ∧
    initLoop chanC9wit [0x36, 0x37] =
      ((initLoop chanC9wit [0x37]).1, 0x36 :: (initLoop chanC9wit [0x37]).2) := by
  constructor
  · refine C9_set_address_failure_aborts.1 chanC9wit [0x36] 0x37 [0x38, 0x39]
      (.invalidSlaveAddress 0x37) (by decide) ?_ rfl
    intro a ha
    rw [List.mem_singleton] at ha
    subst ha
    exact ⟨rfl, Or.inr ⟨0x36, rfl⟩⟩
  · exact C9_set_address_failure_aborts.2 chanC9wit 0x36 [0x37] 0x36 rfl rfl
